import Mathlib

/-!
# Verification of the sped-feedback-etl multi-store fan-out pipeline

A shallow embedding of the parts of the repository that the specification's
claims are about:

* `src/graph_db/neptune_loader.py` — the Neptune graph adapter
  (check-then-create node upserts, unconditional edge creation,
  `load_feedback_into_graph`);
* `src/elastic_search/client.py` and `src/elastic_search/search.py` — the
  Elasticsearch client (`index_document`, `search`) and the compound query
  builder `advanced_feedback_search`;
* `src/vector_db/semantic.py` — the Qdrant semantic processor
  (`generate_embedding`, `store_feedback_embedding`, `semantic_search`);
* `src/flask_app/app.py` — the `submit_feedback` endpoint (validation,
  commit, Celery task queuing);
* `src/airflow_dags/etl_feedback_dag.py` — the batch ETL DAG
  (extract unprocessed → clean text → mark processed).

Python dictionaries keyed by strings are modelled as association lists,
the state of each backing store as explicit record types threaded through
the operations, caught exceptions as `Except`/flag results, and Python
truthiness is modelled explicitly where the source relies on it.  External
backends (Qdrant, Elasticsearch) are modelled at their documented
interface contract where the source delegates to them.  Definitions whose
doc comment starts with `Modelled from the spec:` render the
specification's words (for comparison against the code model); everything
else is translated from the source.
-/

namespace SpedETL

/-! ## Graph adapter: `src/graph_db/neptune_loader.py`

A vertex stores its Gremlin vertex id (modelled as a `Nat` drawn from a
fresh-id counter, standing in for `uuid.uuid4()`), its label, and the
natural-key property that the source's check-then-create guards on
(`student_id` for Student, `name` for Teacher/Category, `feedback_id` for
Feedback).  Feedback vertices additionally carry `rating` and, when truthy,
`open_feedback`. -/

structure Vertex where
  vid : Nat
  lbl : String
  key : String
  rating : Option Int := none
  open_fb : Option String := none
  deriving DecidableEq, Repr

structure GEdge where
  lbl : String
  src : Nat
  dst : Nat
  deriving DecidableEq, Repr

structure GraphState where
  vertices : List Vertex
  edges : List GEdge
  nextId : Nat
  deriving DecidableEq, Repr

def GraphState.empty : GraphState := ⟨[], [], 0⟩

/-- Python truthiness of an optional string (`None` and `""` are falsy). -/
def truthyOptStr (o : Option String) : Bool :=
  match o with
  | none => false
  | some s => s ≠ ""

/-- Python truthiness of an optional integer (`None` and `0` are falsy). -/
def truthyOptInt (o : Option Int) : Bool :=
  match o with
  | none => false
  | some n => n ≠ 0

/-- The shared check-then-create pattern of `add_student`, `add_teacher`,
`add_category` and `add_feedback`: query for an existing vertex with this
label and natural key (`g.V().hasLabel(lbl).has(keyProp, key)`); if one
exists return its id and leave the graph unchanged, otherwise append a new
vertex under a fresh id. -/
def addNode (s : GraphState) (lbl key : String)
    (rating : Option Int) (open_fb : Option String) : Nat × GraphState :=
  match s.vertices.find? (fun v => v.lbl = lbl ∧ v.key = key) with
  | some v => (v.vid, s)
  | none =>
      (s.nextId,
        { s with
          vertices := s.vertices ++ [⟨s.nextId, lbl, key, rating, open_fb⟩],
          nextId := s.nextId + 1 })

/-- `NeptuneLoader.add_student`. -/
def add_student (s : GraphState) (student_id : String) : Nat × GraphState :=
  addNode s "Student" student_id none none

/-- `NeptuneLoader.add_teacher`. -/
def add_teacher (s : GraphState) (teacher_name : String) : Nat × GraphState :=
  addNode s "Teacher" teacher_name none none

/-- `NeptuneLoader.add_category`. -/
def add_category (s : GraphState) (category_name : String) : Nat × GraphState :=
  addNode s "Category" category_name none none

/-- `NeptuneLoader.add_feedback`; the `open_feedback` property is only set
when the text is truthy (`if open_feedback:`). -/
def add_feedback (s : GraphState) (feedback_id : String) (rating : Int)
    (open_feedback : Option String) : Nat × GraphState :=
  addNode s "Feedback" feedback_id (some rating)
    (if truthyOptStr open_feedback then open_feedback else none)

/-- `NeptuneLoader.create_student_submits_feedback_edge`: an unconditional
`g.V(student).addE('SUBMITS').to(V(feedback))` — no existence check. -/
def create_student_submits_feedback_edge (s : GraphState)
    (student_vid feedback_vid : Nat) : Bool × GraphState :=
  (true, { s with edges := s.edges ++ [⟨"SUBMITS", student_vid, feedback_vid⟩] })

/-- `NeptuneLoader.create_student_assigned_to_teacher_edge`. -/
def create_student_assigned_to_teacher_edge (s : GraphState)
    (student_vid teacher_vid : Nat) : Bool × GraphState :=
  (true, { s with edges := s.edges ++ [⟨"ASSIGNED_TO", student_vid, teacher_vid⟩] })

/-- `NeptuneLoader.create_feedback_related_to_category_edge`. -/
def create_feedback_related_to_category_edge (s : GraphState)
    (feedback_vid category_vid : Nat) : Bool × GraphState :=
  (true, { s with edges := s.edges ++ [⟨"RELATED_TO", feedback_vid, category_vid⟩] })

/-- The input dictionary of `load_feedback_into_graph`; absent keys
(`dict.get`) are `none`. -/
structure FeedbackData where
  feedback_id : Option String
  student_id : Option String
  teacher_name : Option String
  category : Option String
  rating : Option Int
  open_feedback : Option String
  deriving DecidableEq, Repr

/-- The source's `all([feedback_id, student_id, teacher_name, category,
rating])` guard (Python truthiness: empty strings and a zero rating count
as missing). -/
def FeedbackData.valid (fd : FeedbackData) : Bool :=
  truthyOptStr fd.feedback_id && truthyOptStr fd.student_id &&
  truthyOptStr fd.teacher_name && truthyOptStr fd.category &&
  truthyOptInt fd.rating

/-- `NeptuneLoader.load_feedback_into_graph`: validate the required fields,
create (or find) the four nodes, then unconditionally create the three
edges.  Returns the four vertex ids on success, `none` on the validation
error path (which leaves the graph untouched). -/
def load_feedback_into_graph (fd : FeedbackData) (s : GraphState) :
    Option (Nat × Nat × Nat × Nat) × GraphState :=
  if fd.valid then
    let p1 := add_student s (fd.student_id.getD "")
    let p2 := add_teacher p1.2 (fd.teacher_name.getD "")
    let p3 := add_category p2.2 (fd.category.getD "")
    let p4 := add_feedback p3.2 (fd.feedback_id.getD "") (fd.rating.getD 0)
      fd.open_feedback
    let s5 := (create_student_submits_feedback_edge p4.2 p1.1 p4.1).2
    let s6 := (create_student_assigned_to_teacher_edge s5 p1.1 p2.1).2
    let s7 := (create_feedback_related_to_category_edge s6 p4.1 p3.1).2
    (some (p1.1, p2.1, p3.1, p4.1), s7)
  else
    (none, s)

/-- Whether the graph holds a vertex with this label and natural key. -/
def hasNode (s : GraphState) (lbl key : String) : Bool :=
  s.vertices.any (fun v => v.lbl = lbl && v.key = key)

/-- How many copies of one edge the graph holds. -/
def edgeCount (s : GraphState) (e : GEdge) : Nat :=
  s.edges.count e

/-! ## Search adapter: `src/elastic_search/client.py`

The Elasticsearch index is modelled as an association list of documents
keyed by document id; a document is a JSON-object-like list of fields. -/

/-- A search document (the JSON object sent to Elasticsearch). -/
def EsDoc := List (String × String)
  deriving DecidableEq, Repr

/-- `ElasticsearchClient.index_document` /
`client.index(index=…, id=doc_id, document=document)`: a full-replace
upsert keyed by the document id. -/
def index_document (es : List (String × EsDoc)) (doc_id : String)
    (document : EsDoc) : List (String × EsDoc) :=
  (doc_id, document) :: es.filter (fun kv => kv.1 ≠ doc_id)

/-- How many documents an index holds under one id. -/
def docCount (es : List (String × EsDoc)) (doc_id : String) : Nat :=
  es.countP (fun kv => kv.1 = doc_id)

/-- One raw hit of an Elasticsearch response (`_source`, `_id`, `_score`). -/
structure EsHit where
  source : EsDoc
  hid : String
  score : ℚ
  deriving DecidableEq, Repr

/-- The dictionary `ElasticsearchClient.search` returns: either the error
shape `{"error": …, "hits": [], "total": 0}` (`error = some …`) or the
success shape `{"hits": …, "total": …, "max_score": …}` (`error = none`). -/
structure SearchResult where
  error : Option String := none
  hits : List EsHit := []
  total : Nat := 0
  max_score : Option ℚ := none
  deriving DecidableEq, Repr

/-- `ElasticsearchClient.search`.  The Elasticsearch server call
`self.client.search(index=…, query=…, size=…, from_=…)` is modelled at its
interface contract: `matching` is the list of documents matching the query
(in score order), of which the server returns the `from_ .. from_+size`
window, with `total` the full match count; a raised error is `failure =
some msg`.  The `connected`/`connect_ok` flags model `self.connected` and
the `self.connect()` retry. -/
def es_client_search (connected connect_ok : Bool) (matching : List EsHit)
    (failure : Option String) (size from_ : Nat) : SearchResult :=
  if !connected && !connect_ok then
    { error := some "Not connected to Elasticsearch" }
  else
    match failure with
    | some e => { error := some e }
    | none =>
        { error := none,
          hits := (matching.drop from_).take size,
          total := matching.length,
          max_score := (matching.map (fun h => h.score)).max? }

/-! ## Compound query builder: `src/elastic_search/search.py` -/

/-- The fragment of the Elasticsearch query DSL that
`advanced_feedback_search` emits. -/
inductive EsQuery where
  | matchAll
  | multiMatch (query : String) (fields : List String)
  | termQ (field value : String)
  | rangeQ (field : String) (gte lte : Option Int)
  | boolQ (must : List EsQuery) (filter : List EsQuery)

/-- The fields the full-text clause searches over. -/
def multiMatchFields : List String :=
  ["open_feedback", "teacher_name", "topics", "entities"]

/-- `advanced_feedback_search` (query construction; the built query is then
passed to `client.search` together with `size`).  `text`, `category` and
`sentiment` are guarded by Python truthiness (`if text:`), the rating
bounds by `is not None`. -/
def advanced_feedback_search (text category sentiment : Option String)
    (min_rating max_rating : Option Int) : EsQuery :=
  let must_clauses :=
    if truthyOptStr text then
      [EsQuery.multiMatch (text.getD "") multiMatchFields]
    else []
  let filter_clauses :=
    (if truthyOptStr category then
      [EsQuery.termQ "category" (category.getD "")] else []) ++
    (if truthyOptStr sentiment then
      [EsQuery.termQ "sentiment" (sentiment.getD "")] else []) ++
    (if min_rating.isSome || max_rating.isSome then
      [EsQuery.rangeQ "rating" min_rating max_rating] else [])
  if must_clauses.isEmpty && filter_clauses.isEmpty then
    EsQuery.matchAll
  else
    EsQuery.boolQ must_clauses filter_clauses

/-- A leaf predicate (not `match_all`, not a nested `bool`). -/
def EsQuery.isLeaf : EsQuery → Bool
  | .matchAll => false
  | .boolQ _ _ => false
  | _ => true

/-- The immediate clauses of the conjunction (must ++ filter). -/
def EsQuery.clauses : EsQuery → List EsQuery
  | .boolQ m f => m ++ f
  | .matchAll => []
  | q => [q]

/-- The full-text clauses of a (one-level) query tree. -/
def EsQuery.multiMatches (q : EsQuery) : List (String × List String) :=
  q.clauses.filterMap (fun c =>
    match c with
    | .multiMatch t fs => some (t, fs)
    | _ => none)

/-- The equality filters of a (one-level) query tree. -/
def EsQuery.termFilters (q : EsQuery) : List (String × String) :=
  q.clauses.filterMap (fun c =>
    match c with
    | .termQ f v => some (f, v)
    | _ => none)

/-- The range filters of a (one-level) query tree. -/
def EsQuery.rangeFilters (q : EsQuery) : List (String × Option Int × Option Int) :=
  q.clauses.filterMap (fun c =>
    match c with
    | .rangeQ f lo hi => some (f, lo, hi)
    | _ => none)

/-- A single conjunctive predicate tree: `match_all`, or one `bool` node
whose children are all leaves (AND of leaf clauses — `must` and `filter`
clauses of a `bool` query are all conjunctive in Elasticsearch). -/
def EsQuery.isConjunctiveTree : EsQuery → Bool
  | .matchAll => true
  | .boolQ m f => (m ++ f).all EsQuery.isLeaf
  | _ => false

/-! ## Vector adapter: `src/vector_db/semantic.py`

The SentenceTransformer model is a parameter `encode` (fallible: the source
re-raises encoding errors); the Qdrant collection is a store with a fixed
vector size that rejects points of mismatched dimensionality — per the
Qdrant contract, a point whose vector length differs from the collection's
configured size is refused with an error, never coerced. -/

/-- `SemanticProcessor.generate_embedding`: empty (falsy) text short-circuits
to a zero vector of the configured size without touching the model. -/
def generate_embedding (vector_size : Nat)
    (encode : String → Except String (List ℚ)) (text : String) :
    Except String (List ℚ) :=
  if text = "" then .ok (List.replicate vector_size 0)
  else encode text

structure VecPoint where
  pid : Nat
  vec : List ℚ
  payload : List (String × String)
  deriving DecidableEq, Repr

structure VecStore where
  size : Nat
  points : List VecPoint
  deriving DecidableEq, Repr

/-- `qdrant_client.upsert` on a collection created with a fixed
`VectorParams.size`: an upsert keyed by point id, rejecting a vector of the
wrong dimensionality. -/
def qdrant_upsert (st : VecStore) (p : VecPoint) : Except String VecStore :=
  if p.vec.length = st.size then
    .ok { st with points := p :: st.points.filter (fun q => q.pid ≠ p.pid) }
  else
    .error "Vector dimension error"

/-- `SemanticProcessor.store_feedback_embedding`: generate the embedding,
build the payload, upsert into Qdrant; any raised error is caught
(`except … return False`) leaving the store untouched. -/
def store_feedback_embedding (st : VecStore) (vector_size : Nat)
    (encode : String → Except String (List ℚ)) (feedback_id : Nat)
    (feedback_text : String) (metadata : List (String × String)) :
    Bool × VecStore :=
  match generate_embedding vector_size encode feedback_text with
  | .error _ => (false, st)
  | .ok embedding =>
      let payload := ("feedback_id", toString feedback_id) ::
        ("text", feedback_text.take 1000) :: metadata
      match qdrant_upsert st ⟨feedback_id, embedding, payload⟩ with
      | .ok st' => (true, st')
      | .error _ => (false, st)

structure ScoredPoint where
  point : VecPoint
  score : ℚ
  deriving DecidableEq, Repr

/-- `qdrant_client.search` at its interface contract: score every point
against the query vector with the collection's similarity metric `sim`,
keep those at or above `score_threshold`, and return the top `limit` by
score. -/
def qdrant_search (st : VecStore) (query_vector : List ℚ) (limit : Nat)
    (score_threshold : ℚ) (sim : List ℚ → List ℚ → ℚ) : List ScoredPoint :=
  let scored := st.points.map (fun p => ScoredPoint.mk p (sim query_vector p.vec))
  let kept := scored.filter (fun r => score_threshold ≤ r.score)
  (kept.mergeSort (fun a b => b.score ≤ a.score)).take limit

/-- The Qdrant search call including availability: when the backend is down
the client raises (`available = false` → error). -/
def qdrant_search_call (available : Bool) (st : VecStore)
    (query_vector : List ℚ) (limit : Nat) (score_threshold : ℚ)
    (sim : List ℚ → List ℚ → ℚ) : Except String (List ScoredPoint) :=
  if available then .ok (qdrant_search st query_vector limit score_threshold sim)
  else .error "Connection refused"

/-- One formatted result of `SemanticProcessor.semantic_search`. -/
structure SemResult where
  feedback_id : Option String
  text : Option String
  score : ℚ
  metadata : List (String × String)
  deriving DecidableEq, Repr

def formatSemResult (r : ScoredPoint) : SemResult :=
  { feedback_id := r.point.payload.lookup "feedback_id",
    text := r.point.payload.lookup "text",
    score := r.score,
    metadata := r.point.payload.filter
      (fun kv => kv.1 ≠ "feedback_id" ∧ kv.1 ≠ "text") }

/-- `SemanticProcessor.semantic_search`: embed the query, search Qdrant,
format the hits; every raised error (embedding or backend) is caught and
an empty list returned (`except … return []`). -/
def semantic_search (available : Bool) (st : VecStore)
    (sim : List ℚ → List ℚ → ℚ) (vector_size : Nat)
    (encode : String → Except String (List ℚ)) (query_text : String)
    (limit : Nat) (score_threshold : ℚ) : List SemResult :=
  match generate_embedding vector_size encode query_text with
  | .error _ => []
  | .ok qv =>
      match qdrant_search_call available st qv limit score_threshold sim with
      | .error _ => []
      | .ok rs => rs.map formatSemResult

/-! ## Ingestion endpoint: `src/flask_app/app.py` (`submit_feedback`)

The JSON payload is an association list of `JValue`s; Python's `int(…)`
coercion with its `ValueError`/`TypeError` distinction is modelled
explicitly (the endpoint's inner `try` catches only `ValueError`; a
`TypeError` — e.g. `int(None)` — falls through to the outer handler and
becomes a 500 with rollback). -/

inductive JValue where
  | jint (n : Int)
  | jfloat (q : ℚ)
  | jstr (s : String)
  | jbool (b : Bool)
  | jnull
  deriving DecidableEq, Repr

/-- Python truthiness of a JSON value. -/
def jTruthy : JValue → Bool
  | .jint n => n ≠ 0
  | .jfloat q => q ≠ 0
  | .jstr s => s ≠ ""
  | .jbool b => b
  | .jnull => false

/-- Truthiness of `dict.get`'s result (`None` when the key is absent). -/
def jTruthyOpt : Option JValue → Bool
  | none => false
  | some v => jTruthy v

inductive PyNumErr where
  | valueError
  | typeError
  deriving DecidableEq, Repr

/-- Truncation toward zero, Python's `int(float)`. -/
def ratTrunc (q : ℚ) : Int :=
  if 0 ≤ q then ⌊q⌋ else ⌈q⌉

/-- An all-digit character run parsed as a natural number. -/
def parseDecimal (cs : List Char) : Option Nat :=
  if cs ≠ [] ∧ cs.all (fun c => c.isDigit) then
    some (cs.foldl (fun n c => n * 10 + (c.toNat - 48)) 0)
  else none

/-- Python's `int(str)`: an optional sign followed by decimal digits
(anything else raises `ValueError`; surrounding whitespace and digit-group
underscores, which Python also tolerates, are not modelled). -/
def pyIntOfString (s : String) : Option Int :=
  match s.toList with
  | '-' :: rest => (parseDecimal rest).map (fun n => -(n : Int))
  | '+' :: rest => (parseDecimal rest).map (fun n => (n : Int))
  | cs => (parseDecimal cs).map (fun n => (n : Int))

/-- Python's `int(x)`: integers pass through, bools coerce to 0/1, floats
truncate toward zero, decimal strings parse (non-numeric strings raise
`ValueError`), `None` raises `TypeError`. -/
def pyInt : JValue → Except PyNumErr Int
  | .jint n => .ok n
  | .jbool b => .ok (if b then 1 else 0)
  | .jfloat q => .ok (ratTrunc q)
  | .jstr s =>
      match pyIntOfString s with
      | some n => .ok n
      | none => .error .valueError
  | .jnull => .error .typeError

/-- A committed row of the relational `feedback` table
(`flask_app/models.py`); `rid` is the autoincrement primary key. -/
structure FeedbackRow where
  rid : Nat
  student_id : JValue
  teacher_name : JValue
  rating : Int
  category : JValue
  open_feedback : Option JValue
  deriving DecidableEq, Repr

/-- The observable outcome of one `POST /submit-feedback` request: the HTTP
status and message, the row committed to the relational store (if any), and
the Celery tasks queued (each `process_open_feedback.delay(id, text)` call,
the only task the endpoint dispatches). -/
structure SubmitOutcome where
  status : Nat
  message : String
  committed : Option FeedbackRow
  queued : List (Nat × JValue)
  deriving DecidableEq, Repr

def requiredFields : List String :=
  ["student_id", "teacher_name", "rating", "category"]

/-- The endpoint's required-field loop: the first of the four required
fields not present in the payload, if any. -/
def firstMissing (data : List (String × JValue)) : Option String :=
  requiredFields.find? (fun f => (data.lookup f).isNone)

/-- `submit_feedback`: validate required fields, coerce and range-check the
rating, commit the row, then queue `process_open_feedback` iff the stored
`open_feedback` is truthy. -/
def submit_feedback (data : List (String × JValue)) (new_id : Nat) :
    SubmitOutcome :=
  match firstMissing data with
  | some f => ⟨400, "Missing required field: " ++ f, none, []⟩
  | none =>
      match pyInt ((data.lookup "rating").getD .jnull) with
      | .error .valueError => ⟨400, "Rating must be a number", none, []⟩
      | .error .typeError =>
          ⟨500, "An error occurred while processing your request", none, []⟩
      | .ok r =>
          if r < 1 ∨ 5 < r then
            ⟨400, "Rating must be between 1 and 5", none, []⟩
          else
            let row : FeedbackRow :=
              { rid := new_id,
                student_id := (data.lookup "student_id").getD .jnull,
                teacher_name := (data.lookup "teacher_name").getD .jnull,
                rating := r,
                category := (data.lookup "category").getD .jnull,
                open_feedback := data.lookup "open_feedback" }
            let queued :=
              if jTruthyOpt row.open_feedback then
                [(new_id, row.open_feedback.getD .jnull)]
              else []
            ⟨201, "Feedback submitted successfully", some row, queued⟩

/-! ## Batch ETL pipeline: `src/airflow_dags/etl_feedback_dag.py`

The DAG is `extract_unprocessed_feedback >> transform_feedback >>
mark_feedback_processed`; the relational `feedback` table is the explicit
state.  None of the three tasks writes to the Search, Vector, Graph or
Insight stores. -/

structure DbRow where
  rid : Nat
  student_id : String
  teacher_name : String
  rating : Int
  category : String
  open_feedback : Option String
  processed : Bool
  deriving DecidableEq, Repr

/-- `extract_unprocessed_feedback`: `SELECT * FROM feedback WHERE
processed = 0`. -/
def extract_unprocessed_feedback (db : List DbRow) : List DbRow :=
  db.filter (fun r => r.processed = false)

/-- Membership in Python's `string.punctuation` (ASCII 33–47, 58–64, 91–96,
123–126). -/
def isPunct (c : Char) : Bool :=
  (33 ≤ c.toNat ∧ c.toNat ≤ 47) ∨ (58 ≤ c.toNat ∧ c.toNat ≤ 64) ∨
  (91 ≤ c.toNat ∧ c.toNat ≤ 96) ∨ (123 ≤ c.toNat ∧ c.toNat ≤ 126)

/-- `clean_text`: falsy text becomes `""`; otherwise lowercase, strip
punctuation, collapse whitespace runs to single spaces and trim. -/
def clean_text (t : Option String) : String :=
  match t with
  | none => ""
  | some s =>
      if s = "" then ""
      else
        let lowered := (s.toList.map Char.toLower).filter (fun c => ¬ isPunct c)
        " ".intercalate
          ((lowered.asString.split (fun c => c.isWhitespace)).filter
            (fun w => w ≠ ""))

/-- `transform_feedback_data` on a non-empty batch: clean each row's text
and hand the extracted `feedback_ids` (`df['id'].tolist()`) to the next
task. -/
def transform_feedback (rows : List DbRow) : List (DbRow × String) × List Nat :=
  (rows.map (fun r => (r, clean_text r.open_feedback)), rows.map (fun r => r.rid))

/-- `mark_feedback_processed`: `UPDATE feedback SET processed = 1 WHERE id
IN (…)` over the ids handed over by the transform task. -/
def mark_feedback_processed (db : List DbRow) (ids : List Nat) : List DbRow :=
  db.map (fun r => if r.rid ∈ ids then { r with processed := true } else r)

/-- One run of the `sped_feedback_etl` DAG over the feedback table: extract
the unprocessed rows; when there are none every task short-circuits
(`record_count == 0`) and the table is untouched; otherwise transform and
mark the extracted ids processed. -/
def etl_dag_run (db : List DbRow) : List DbRow :=
  let extracted := extract_unprocessed_feedback db
  if extracted.length = 0 then db
  else mark_feedback_processed db (transform_feedback extracted).2

/-- The per-store fan-out tasks one run of the batch DAG creates or
executes, as `(record id, target store name, status)` triples.  The DAG's
three PythonOperators (extract → transform → mark) read the relational
table, clean text into temp files and update the `processed` flag; none of
them creates a task against, or writes to, the Search, Vector, Graph or
Insight stores, so this list is empty for every input table. -/
def etl_fan_out_tasks (_db : List DbRow) : List (Nat × String × String) := []

/-! ## Renderings of the specification's words (for refinement claims) -/

/-- Modelled from the spec: the four fan-out target stores of the
`FanOutTask` model (`target_store` enum `Search | Vector | Graph |
Insight`). -/
inductive SpecStore where
  | Search
  | Vector
  | Graph
  | Insight
  deriving DecidableEq, Repr

/-- Modelled from the spec: `Dispatch` "produces one task per applicable
target store (Vector task omitted when `open_text` is empty; all others
always produced)". -/
def specApplicableStores (open_text_empty : Bool) : List SpecStore :=
  if open_text_empty then [.Search, .Graph, .Insight]
  else [.Search, .Vector, .Graph, .Insight]

/-- Modelled from the spec: the `FanOutTask.status` enum
(`Pending | InFlight | Succeeded | FailedTerminal`); the source has no
task-status ledger of any kind. -/
inductive SpecTaskStatus where
  | Pending
  | InFlight
  | Succeeded
  | FailedTerminal
  deriving DecidableEq, Repr

/-- The task status the source records for the Vector store after a
`store_feedback_embedding` call.  Nothing in `src/` persists a per-record,
per-store status (there is no StoreStatusLedger anywhere in the
repository): the call's entire observable outcome is its boolean result
and the Qdrant store state, so no status is recorded. -/
def recordedVectorTaskStatus (_outcome : Bool × VecStore) :
    Option SpecTaskStatus := none

/-- Modelled from the spec: the claim that the batch pipeline marks a
record processed "only after all mandatory (non-Vector) fan-out tasks for
the batch reach a terminal state (Succeeded or FailedTerminal)" — for each
extracted record and each mandatory store, the run must hold a fan-out
task for that pair in a terminal state. -/
def specC3MandatoryGate (db : List DbRow) : Prop :=
  ∀ r ∈ extract_unprocessed_feedback db,
    ∀ st ∈ (["Search", "Graph", "Insight"] : List String),
      ∃ t ∈ etl_fan_out_tasks db,
        t.1 = r.rid ∧ t.2.1 = st ∧
        (t.2.2 = "Succeeded" ∨ t.2.2 = "FailedTerminal")

/-- Modelled from the spec: validation must reject exactly the payloads
with a missing required field or a rating that is not an integer in
`[1, 5]` (a decimal string or a float is not an integer). -/
def specShouldReject (data : List (String × JValue)) : Bool :=
  (requiredFields.any (fun f => (data.lookup f).isNone)) ||
  (match data.lookup "rating" with
   | some (.jint n) => ¬(1 ≤ n ∧ n ≤ 5)
   | _ => true)

/-- Modelled from the spec: the degraded-read contract — with the Vector
store down, a SemanticSearch-dependent query still returns non-empty
Search-only results (annotated `degraded: true`; the source's result shape
has no such annotation, so only the non-emptiness is expressible on it). -/
def specDegradedNonEmpty (out : List SemResult) : Prop :=
  out ≠ []

/-! ## Concrete inputs used by witnesses and counterexamples -/

/-- The spec's end-to-end example record. -/
def exampleFeedback : FeedbackData :=
  ⟨some "1", some "S1", some "T1", some "reading", some 4, some "great progress"⟩

def exampleLoadOnce : GraphState :=
  (load_feedback_into_graph exampleFeedback GraphState.empty).2

def exampleLoadTwice : GraphState :=
  (load_feedback_into_graph exampleFeedback exampleLoadOnce).2

/-- The spec's end-to-end example payload, with open feedback. -/
def examplePayload : List (String × JValue) :=
  [("student_id", .jstr "S1"), ("teacher_name", .jstr "T1"),
   ("rating", .jint 4), ("category", .jstr "reading"),
   ("open_feedback", .jstr "great progress")]

/-- The same payload without open feedback (the spec's empty-text
end-to-end case). -/
def examplePayloadNoOpen : List (String × JValue) :=
  [("student_id", .jstr "S1"), ("teacher_name", .jstr "T1"),
   ("rating", .jint 4), ("category", .jstr "reading")]

/-- The same payload with the rating as the decimal string `"3"` — not an
integer. -/
def examplePayloadStrRating : List (String × JValue) :=
  [("student_id", .jstr "S1"), ("teacher_name", .jstr "T1"),
   ("rating", .jstr "3"), ("category", .jstr "reading"),
   ("open_feedback", .jstr "great progress")]

/-- A one-row feedback table with an unprocessed record. -/
def exampleDb : List DbRow :=
  [⟨1, "S1", "T1", 4, "reading", some "great progress", false⟩]

/-- A vector store of dimension 2 with one stored point. -/
def exampleVecStore : VecStore :=
  ⟨2, [⟨1, [1, 0], [("feedback_id", "1"), ("text", "great progress")]⟩]⟩

/-- A constant similarity metric, enough to exercise the degraded path. -/
def exampleSim : List ℚ → List ℚ → ℚ := fun _ _ => 1

/-- An embedding model of dimension 3 (mismatching `exampleVecStore`). -/
def exampleEncode3 : String → Except String (List ℚ) :=
  fun _ => .ok [1, 0, 0]

/-! ## Lemmas about the graph node upsert -/

theorem addNode_vertices_mono {s : GraphState} {lbl key : String}
    {r : Option Int} {o : Option String} {v : Vertex} (h : v ∈ s.vertices) :
    v ∈ (addNode s lbl key r o).2.vertices := by
  unfold addNode
  cases hf : s.vertices.find? (fun v => v.lbl = lbl ∧ v.key = key) with
  | some w => simpa using h
  | none => simp [List.mem_append]; exact Or.inl h

theorem addNode_edges {s : GraphState} {lbl key : String}
    {r : Option Int} {o : Option String} :
    (addNode s lbl key r o).2.edges = s.edges := by
  unfold addNode
  cases hf : s.vertices.find? (fun v => v.lbl = lbl ∧ v.key = key) <;> simp

theorem addNode_hasNode {s : GraphState} (lbl key : String)
    (r : Option Int) (o : Option String) :
    hasNode (addNode s lbl key r o).2 lbl key = true := by
  unfold addNode hasNode
  cases hf : s.vertices.find? (fun v => v.lbl = lbl ∧ v.key = key) with
  | some w =>
      have hw := List.find?_some hf
      have hmem := List.mem_of_find?_eq_some hf
      simp at hw
      simp [List.any_eq_true]
      exact ⟨w, hmem, hw.1, hw.2⟩
  | none =>
      simp [List.any_eq_true]

theorem hasNode_addNode_mono {s : GraphState} {lbl key : String}
    (lbl' key' : String) (r : Option Int) (o : Option String)
    (h : hasNode s lbl key = true) :
    hasNode (addNode s lbl' key' r o).2 lbl key = true := by
  unfold hasNode at h ⊢
  simp [List.any_eq_true] at h ⊢
  obtain ⟨v, hv, h1, h2⟩ := h
  exact ⟨v, addNode_vertices_mono hv, h1, h2⟩

/-- When a vertex with the natural key already exists, the check-then-create
finds it and leaves the graph completely unchanged. -/
theorem addNode_of_hasNode {s : GraphState} {lbl key : String}
    (r : Option Int) (o : Option String) (h : hasNode s lbl key = true) :
    (addNode s lbl key r o).2 = s := by
  unfold hasNode at h
  simp [List.any_eq_true] at h
  obtain ⟨v, hv, h1, h2⟩ := h
  have : (s.vertices.find? (fun v => v.lbl = lbl ∧ v.key = key)).isSome := by
    rw [List.find?_isSome]
    exact ⟨v, hv, by simp [h1, h2]⟩
  unfold addNode
  cases hf : s.vertices.find? (fun v => v.lbl = lbl ∧ v.key = key) with
  | some w => simp
  | none => rw [hf] at this; simp at this

theorem submits_edge_vertices {s : GraphState} {a b : Nat} :
    (create_student_submits_feedback_edge s a b).2.vertices = s.vertices := rfl

theorem assigned_edge_vertices {s : GraphState} {a b : Nat} :
    (create_student_assigned_to_teacher_edge s a b).2.vertices = s.vertices := rfl

theorem related_edge_vertices {s : GraphState} {a b : Nat} :
    (create_feedback_related_to_category_edge s a b).2.vertices = s.vertices := rfl

/-- A successful load leaves the graph with all four natural-keyed nodes. -/
theorem load_hasNodes (fd : FeedbackData) (s : GraphState)
    (hv : fd.valid = true) :
    hasNode (load_feedback_into_graph fd s).2 "Student" (fd.student_id.getD "") = true ∧
    hasNode (load_feedback_into_graph fd s).2 "Teacher" (fd.teacher_name.getD "") = true ∧
    hasNode (load_feedback_into_graph fd s).2 "Category" (fd.category.getD "") = true ∧
    hasNode (load_feedback_into_graph fd s).2 "Feedback" (fd.feedback_id.getD "") = true := by
  unfold load_feedback_into_graph
  rw [hv]
  simp only [if_true, add_student, add_teacher, add_category, add_feedback]
  unfold hasNode
  simp only [submits_edge_vertices, assigned_edge_vertices, related_edge_vertices]
  refine ⟨?_, ?_, ?_, ?_⟩
  · exact hasNode_addNode_mono _ _ _ _ (hasNode_addNode_mono _ _ _ _
      (hasNode_addNode_mono _ _ _ _ (addNode_hasNode _ _ _ _)))
  · exact hasNode_addNode_mono _ _ _ _ (hasNode_addNode_mono _ _ _ _
      (addNode_hasNode _ _ _ _))
  · exact hasNode_addNode_mono _ _ _ _ (addNode_hasNode _ _ _ _)
  · exact addNode_hasNode _ _ _ _

/-- When all four nodes already exist, a load re-finds them and only appends
edges: the vertex list is untouched. -/
theorem load_vertices_of_hasNodes (fd : FeedbackData) (s : GraphState)
    (hS : hasNode s "Student" (fd.student_id.getD "") = true)
    (hT : hasNode s "Teacher" (fd.teacher_name.getD "") = true)
    (hC : hasNode s "Category" (fd.category.getD "") = true)
    (hF : hasNode s "Feedback" (fd.feedback_id.getD "") = true) :
    (load_feedback_into_graph fd s).2.vertices = s.vertices := by
  unfold load_feedback_into_graph
  by_cases hv : fd.valid = true
  · rw [hv]
    simp only [if_true, add_student, add_teacher, add_category, add_feedback]
    rw [addNode_of_hasNode _ _ hS]
    rw [addNode_of_hasNode _ _ hT]
    rw [addNode_of_hasNode _ _ hC]
    rw [addNode_of_hasNode _ _ hF]
    rfl
  · rw [Bool.not_eq_true] at hv
    rw [hv]
    simp

/-- A load appends exactly three edges when the record validates and none
otherwise (independently of what the graph already holds: the edge
creations are unconditional). -/
theorem load_edge_growth (fd : FeedbackData) (s : GraphState) :
    (load_feedback_into_graph fd s).2.edges.length =
      s.edges.length + (if fd.valid then 3 else 0) := by
  unfold load_feedback_into_graph
  by_cases hv : fd.valid = true
  · rw [hv]
    simp [create_student_submits_feedback_edge,
      create_student_assigned_to_teacher_edge,
      create_feedback_related_to_category_edge,
      add_student, add_teacher, add_category, add_feedback, addNode_edges]
  · rw [Bool.not_eq_true] at hv
    rw [hv]
    simp

/-! ## Lemmas about the search index upsert -/

theorem index_document_idem (es : List (String × EsDoc)) (doc_id : String)
    (d : EsDoc) :
    index_document (index_document es doc_id d) doc_id d =
      index_document es doc_id d := by
  unfold index_document
  simp [List.filter_filter]

theorem docCount_index_document (es : List (String × EsDoc)) (doc_id : String)
    (d : EsDoc) : docCount (index_document es doc_id d) doc_id = 1 := by
  unfold docCount index_document
  have h0 : (es.filter (fun kv => kv.1 ≠ doc_id)).countP
      (fun kv => decide (kv.1 = doc_id)) = 0 := by
    rw [List.countP_eq_zero]
    intro a ha
    have := List.of_mem_filter ha
    simpa using this
  rw [List.countP_cons_of_pos _ _ (by simp)]
  simp only [h0]

/-! ## Claim C1 -/

/-- C1 counterexample: fan-out against the graph adapter is **not**
idempotent as claimed.  Loading the spec's example record twice into an
empty graph leaves the SUBMITS / ASSIGNED_TO / RELATED_TO edges duplicated
(each stored twice between the same vertices), so the store state after two
executions differs from the state after one. -/
theorem C1_duplicate_edges_counterexample :
    edgeCount exampleLoadOnce ⟨"SUBMITS", 0, 3⟩ = 1 ∧
    edgeCount exampleLoadTwice ⟨"SUBMITS", 0, 3⟩ = 2 ∧
    edgeCount exampleLoadTwice ⟨"ASSIGNED_TO", 0, 1⟩ = 2 ∧
    edgeCount exampleLoadTwice ⟨"RELATED_TO", 3, 2⟩ = 2 ∧
    exampleLoadTwice ≠ exampleLoadOnce := by
  refine ⟨rfl, rfl, rfl, rfl, by decide⟩

/-- C1 (amended): node upserts and search-document upserts are idempotent,
edges are not.  For every record and graph state, re-executing
`load_feedback_into_graph` creates no duplicate Student/Teacher/Category/
Feedback nodes (the vertex list is unchanged by the second execution), but
each execution of a valid record unconditionally appends the three
SUBMITS/ASSIGNED_TO/RELATED_TO edges again; and indexing the same search
document twice keyed by its id is idempotent and leaves exactly one
document under that id. -/
theorem C1_node_and_search_upserts_idempotent_edges_duplicated :
    ∀ (fd : FeedbackData) (s : GraphState),
      (load_feedback_into_graph fd (load_feedback_into_graph fd s).2).2.vertices =
        (load_feedback_into_graph fd s).2.vertices ∧
      (load_feedback_into_graph fd (load_feedback_into_graph fd s).2).2.edges.length =
        (load_feedback_into_graph fd s).2.edges.length + (if fd.valid then 3 else 0) ∧
      ∀ (es : List (String × EsDoc)) (doc_id : String) (d : EsDoc),
        index_document (index_document es doc_id d) doc_id d =
          index_document es doc_id d ∧
        docCount (index_document es doc_id d) doc_id = 1 := by
  intro fd s
  refine ⟨?_, load_edge_growth _ _, fun es doc_id d =>
    ⟨index_document_idem es doc_id d, docCount_index_document es doc_id d⟩⟩
  by_cases hv : fd.valid = true
  · obtain ⟨h1, h2, h3, h4⟩ := load_hasNodes fd s hv
    exact load_vertices_of_hasNodes fd _ h1 h2 h3 h4
  · rw [Bool.not_eq_true] at hv
    simp [load_feedback_into_graph, hv]

/-! ## Lemmas about the submit endpoint -/

/-- On the success path the queued Celery tasks are exactly one
`process_open_feedback` call when `open_feedback` is truthy, none
otherwise. -/
theorem submit_queued_of_success (data : List (String × JValue)) (nid : Nat)
    (h : (submit_feedback data nid).status = 201) :
    (submit_feedback data nid).queued =
      if jTruthyOpt (data.lookup "open_feedback") then
        [(nid, (data.lookup "open_feedback").getD .jnull)]
      else [] := by
  cases hm : firstMissing data with
  | some f => simp [submit_feedback, hm] at h
  | none =>
      cases hp : pyInt ((data.lookup "rating").getD .jnull) with
      | error e => cases e <;> simp [submit_feedback, hm, hp] at h
      | ok r =>
          by_cases hr : r < 1 ∨ 5 < r
          · simp [submit_feedback, hm, hp, hr] at h
          · simp [submit_feedback, hm, hp, hr]

/-- The endpoint answers 400 exactly when a required field is missing, the
rating raises `ValueError` under `int(…)`, or the coerced rating is out of
range. -/
theorem submit_status_400_iff (data : List (String × JValue)) (nid : Nat) :
    (submit_feedback data nid).status = 400 ↔
      (firstMissing data).isSome ∨
      pyInt ((data.lookup "rating").getD .jnull) = .error .valueError ∨
      (∃ r, pyInt ((data.lookup "rating").getD .jnull) = .ok r ∧
        (r < 1 ∨ 5 < r)) := by
  cases hm : firstMissing data with
  | some f => simp [submit_feedback, hm]
  | none =>
      cases hp : pyInt ((data.lookup "rating").getD .jnull) with
      | error e => cases e <;> simp [submit_feedback, hm, hp]
      | ok r =>
          by_cases hr : r < 1 ∨ 5 < r
          · simp [submit_feedback, hm, hp, hr]
          · simp [submit_feedback, hm, hp, hr]

/-- Any non-201 answer commits nothing and queues nothing. -/
theorem submit_not201_no_side_effects (data : List (String × JValue))
    (nid : Nat) (h : (submit_feedback data nid).status ≠ 201) :
    (submit_feedback data nid).committed = none ∧
    (submit_feedback data nid).queued = [] := by
  cases hm : firstMissing data with
  | some f => simp [submit_feedback, hm]
  | none =>
      cases hp : pyInt ((data.lookup "rating").getD .jnull) with
      | error e => cases e <;> simp [submit_feedback, hm, hp]
      | ok r =>
          by_cases hr : r < 1 ∨ 5 < r
          · simp [submit_feedback, hm, hp, hr]
          · exact absurd (by simp [submit_feedback, hm, hp, hr]) h

/-- Every committed row carries a rating in `[1, 5]`. -/
theorem submit_committed_rating_range (data : List (String × JValue))
    (nid : Nat) (row : FeedbackRow)
    (h : (submit_feedback data nid).committed = some row) :
    1 ≤ row.rating ∧ row.rating ≤ 5 := by
  cases hm : firstMissing data with
  | some f => simp [submit_feedback, hm] at h
  | none =>
      cases hp : pyInt ((data.lookup "rating").getD .jnull) with
      | error e => cases e <;> simp [submit_feedback, hm, hp] at h
      | ok r =>
          by_cases hr : r < 1 ∨ 5 < r
          · simp [submit_feedback, hm, hp, hr] at h
          · simp [submit_feedback, hm, hp, hr] at h
            have hrr : row.rating = r := by rw [← h]
            rw [hrr]
            constructor <;> omega

/-! ## Lemmas about the batch ETL pipeline -/

theorem DbRow_set_processed_self (r : DbRow) (h : r.processed = true) :
    ({ r with processed := true } : DbRow) = r := by
  cases r
  simp_all

/-- One DAG run flips the `processed` flag of exactly the rows that were
unprocessed at extraction time and leaves every other row untouched. -/
theorem etl_dag_run_marks_unprocessed (db : List DbRow) :
    etl_dag_run db =
      db.map (fun r =>
        if r.processed = false then { r with processed := true } else r) := by
  unfold etl_dag_run
  by_cases h0 : (extract_unprocessed_feedback db).length = 0
  · rw [if_pos h0]
    have hnil : db.filter (fun r => r.processed = false) = [] :=
      List.length_eq_zero.mp h0
    rw [List.filter_eq_nil_iff] at hnil
    have hmap : db.map (fun r =>
        if r.processed = false then { r with processed := true } else r) =
        db.map (fun r => r) :=
      List.map_congr_left (fun r hr => by
        have ht : ¬ (r.processed = false) := by simpa using hnil r hr
        rw [if_neg ht])
    rw [hmap, List.map_id']
  · rw [if_neg h0]
    unfold mark_feedback_processed
    apply List.map_congr_left
    intro r hr
    by_cases hp : r.processed = false
    · have hmem : r ∈ extract_unprocessed_feedback db := by
        unfold extract_unprocessed_feedback
        rw [List.mem_filter]
        exact ⟨hr, by simp [hp]⟩
      have hid : r.rid ∈ (transform_feedback (extract_unprocessed_feedback db)).2 :=
        List.mem_map.mpr ⟨r, hmem, rfl⟩
      rw [if_pos hid, if_pos hp]
    · have ht : r.processed = true := by simpa using hp
      rw [if_neg hp]
      by_cases hid : r.rid ∈ (transform_feedback (extract_unprocessed_feedback db)).2
      · rw [if_pos hid]
        exact DbRow_set_processed_self r ht
      · rw [if_neg hid]

/-! ## Claim C3 -/

/-- C3 counterexample: the batch pipeline marks its one extracted record as
processed although it created no fan-out task for it — there is no
(Succeeded-or-FailedTerminal) Search/Graph/Insight task for the record, so
marking is not gated on mandatory fan-out tasks reaching a terminal
state. -/
theorem C3_no_fan_out_gating_counterexample :
    etl_dag_run exampleDb =
      [⟨1, "S1", "T1", 4, "reading", some "great progress", true⟩] ∧
    etl_fan_out_tasks exampleDb = [] ∧
    ¬ specC3MandatoryGate exampleDb := by
  refine ⟨by decide, rfl, ?_⟩
  intro h
  obtain ⟨t, ht, -⟩ :=
    h ⟨1, "S1", "T1", 4, "reading", some "great progress", false⟩ (by decide)
      "Search" (by decide)
  simp [etl_fan_out_tasks] at ht

/-- C3 (amended): one run of the batch ETL pipeline marks as processed
exactly the set of rows it extracted as unprocessed (every other row is
untouched); the marking is gated only on the text-cleaning transform task
completing — the DAG contains no per-store fan-out tasks at all, so no
fan-out terminal-state gating exists. -/
theorem C3_marks_exactly_extracted :
    ∀ db : List DbRow,
      etl_dag_run db =
        db.map (fun r =>
          if r.processed = false then { r with processed := true } else r) ∧
      (transform_feedback (extract_unprocessed_feedback db)).2 =
        (extract_unprocessed_feedback db).map (fun r => r.rid) ∧
      etl_fan_out_tasks db = [] := by
  intro db
  exact ⟨etl_dag_run_marks_unprocessed db, rfl, rfl⟩

/-! ## Claim C2 -/

/-- C2 counterexample: dispatch does **not** produce one task per
applicable store.  A valid record with empty/absent open text is accepted
(201), yet zero downstream tasks are queued, while the spec's applicable
non-Vector stores (Search, Graph, Insight) number three. -/
theorem C2_no_per_store_fan_out_counterexample :
    (submit_feedback examplePayloadNoOpen 1).status = 201 ∧
    (submit_feedback examplePayloadNoOpen 1).queued = [] ∧
    specApplicableStores true = [.Search, .Graph, .Insight] ∧
    (submit_feedback examplePayloadNoOpen 1).queued.length ≠
      (specApplicableStores true).length := by
  refine ⟨by decide, by decide, rfl, by decide⟩

/-- C2 (amended): for every payload the endpoint accepts, it queues exactly
one downstream task — the Celery `process_open_feedback` task — if and only
if `open_feedback` is present and truthy, and queues nothing otherwise; in
particular it never queues per-store (Search/Graph/Insight) fan-out
tasks at submission, and never more than one task. -/
theorem C2_single_open_feedback_task (data : List (String × JValue))
    (nid : Nat) (h : (submit_feedback data nid).status = 201) :
    (submit_feedback data nid).queued =
      (if jTruthyOpt (data.lookup "open_feedback") then
        [(nid, (data.lookup "open_feedback").getD .jnull)]
      else []) ∧
    (submit_feedback data nid).queued.length ≤ 1 := by
  have hq := submit_queued_of_success data nid h
  refine ⟨hq, ?_⟩
  rw [hq]
  by_cases ht : jTruthyOpt (data.lookup "open_feedback") <;> simp [ht]

/-- C2 witness: the spec's example payload is accepted and queues the one
open-feedback task. -/
theorem C2_single_open_feedback_task_witness :
    (submit_feedback examplePayload 1).status = 201 ∧
    (submit_feedback examplePayload 1).queued =
      [(1, JValue.jstr "great progress")] := by
  have h : (submit_feedback examplePayload 1).status = 201 := by decide
  exact ⟨h, (C2_single_open_feedback_task examplePayload 1 h).1.trans (by decide)⟩

/-! ## Claim C4 -/

/-- C4 counterexample: the rating `"3"` (a decimal string, not an integer)
should be rejected per the claim, but `int(data['rating'])` coerces it and
the record is committed with rating 3 and answered 201. -/
theorem C4_string_rating_accepted_counterexample :
    specShouldReject examplePayloadStrRating = true ∧
    (submit_feedback examplePayloadStrRating 1).status = 201 ∧
    (submit_feedback examplePayloadStrRating 1).committed =
      some ⟨1, .jstr "S1", .jstr "T1", 3, .jstr "reading",
        some (.jstr "great progress")⟩ := by
  refine ⟨by decide, by decide, by decide⟩

/-- C4 (amended): the endpoint answers a 400 validation error iff a
required field is missing, `int(rating)` raises `ValueError`, or the
coerced rating lies outside `[1, 5]` (values coercible by `int(…)` —
decimal strings, floats truncated toward zero, bools — are accepted;
`int(None)`-style `TypeError`s surface as a 500, not a validation error);
any non-201 answer commits no row and queues no task; and every committed
row has rating in `[1, 5]`. -/
theorem C4_validation_before_commit :
    ∀ (data : List (String × JValue)) (nid : Nat),
      ((submit_feedback data nid).status = 400 ↔
        (firstMissing data).isSome ∨
        pyInt ((data.lookup "rating").getD .jnull) = .error .valueError ∨
        (∃ r, pyInt ((data.lookup "rating").getD .jnull) = .ok r ∧
          (r < 1 ∨ 5 < r))) ∧
      ((submit_feedback data nid).status ≠ 201 →
        (submit_feedback data nid).committed = none ∧
        (submit_feedback data nid).queued = []) ∧
      (∀ row, (submit_feedback data nid).committed = some row →
        1 ≤ row.rating ∧ row.rating ≤ 5) := by
  intro data nid
  exact ⟨submit_status_400_iff data nid,
    submit_not201_no_side_effects data nid,
    fun row => submit_committed_rating_range data nid row⟩

/-! ## Claim C7 -/

/-- C7: `advanced_feedback_search` builds a single conjunctive predicate
tree: the full-text clause is present iff `text` is provided (truthy), one
equality filter each for a provided `category` and `sentiment`, one rating
range filter iff at least one bound is provided (carrying exactly the
provided `gte`/`lte` bounds), and a `match_all` query when no criteria are
provided. -/
theorem C7_conjunctive_predicate_tree :
    ∀ (text category sentiment : Option String)
      (min_rating max_rating : Option Int),
      (advanced_feedback_search text category sentiment min_rating
        max_rating).multiMatches =
        (if truthyOptStr text then [(text.getD "", multiMatchFields)] else []) ∧
      (advanced_feedback_search text category sentiment min_rating
        max_rating).termFilters =
        ((if truthyOptStr category then [("category", category.getD "")] else []) ++
         (if truthyOptStr sentiment then [("sentiment", sentiment.getD "")] else [])) ∧
      (advanced_feedback_search text category sentiment min_rating
        max_rating).rangeFilters =
        (if min_rating.isSome || max_rating.isSome then
          [("rating", min_rating, max_rating)] else []) ∧
      (advanced_feedback_search text category sentiment min_rating
        max_rating = EsQuery.matchAll ↔
        (¬ truthyOptStr text ∧ ¬ truthyOptStr category ∧
         ¬ truthyOptStr sentiment ∧ min_rating = none ∧ max_rating = none)) ∧
      (advanced_feedback_search text category sentiment min_rating
        max_rating).isConjunctiveTree = true := by
  intro text category sentiment min_rating max_rating
  by_cases h1 : truthyOptStr text = true <;>
    by_cases h2 : truthyOptStr category = true <;>
      by_cases h3 : truthyOptStr sentiment = true <;>
        cases min_rating <;> cases max_rating <;>
          simp [advanced_feedback_search, h1, h2, h3,
            EsQuery.multiMatches, EsQuery.termFilters, EsQuery.rangeFilters,
            EsQuery.clauses, EsQuery.isLeaf, EsQuery.isConjunctiveTree]

/-! ## Claim C8 -/

/-- C8: for every query, limit and score threshold (and any backend
availability, store contents, similarity metric and embedding model),
`semantic_search` returns at most `limit` results and every returned
result's similarity score is at least the threshold. -/
theorem C8_result_cap_and_similarity_floor :
    ∀ (available : Bool) (st : VecStore) (sim : List ℚ → List ℚ → ℚ)
      (vector_size : Nat) (encode : String → Except String (List ℚ))
      (query_text : String) (limit : Nat) (score_threshold : ℚ),
      (semantic_search available st sim vector_size encode query_text limit
        score_threshold).length ≤ limit ∧
      ∀ r ∈ semantic_search available st sim vector_size encode query_text
          limit score_threshold, score_threshold ≤ r.score := by
  intro available st sim vs encode q limit θ
  cases hg : generate_embedding vs encode q with
  | error e => simp [semantic_search, hg]
  | ok qv =>
      cases available with
      | false => simp [semantic_search, hg, qdrant_search_call]
      | true =>
          have hrw : semantic_search true st sim vs encode q limit θ =
              (qdrant_search st qv limit θ sim).map formatSemResult := by
            simp [semantic_search, hg, qdrant_search_call]
          rw [hrw]
          constructor
          · rw [List.length_map]
            exact List.length_take_le _ _
          · intro r hr
            rw [List.mem_map] at hr
            obtain ⟨sp, hsp, hfmt⟩ := hr
            have hsp' := List.mem_of_mem_take hsp
            rw [List.mem_mergeSort] at hsp'
            have hkeep := List.of_mem_filter hsp'
            rw [← hfmt]
            simpa [formatSemResult] using hkeep

/-! ## Claim C9 -/

/-- C9: on empty (falsy) text, `generate_embedding` succeeds with a zero
vector of the configured size, independently of the embedding model (the
model is never consulted, so even a failing model cannot make it fail). -/
theorem C9_empty_text_zero_vector :
    ∀ (vector_size : Nat) (encode encode2 : String → Except String (List ℚ)),
      generate_embedding vector_size encode "" =
        .ok (List.replicate vector_size 0) ∧
      (∃ v, generate_embedding vector_size encode "" = .ok v ∧
        v.length = vector_size) ∧
      generate_embedding vector_size encode "" =
        generate_embedding vector_size encode2 "" := by
  intro vs e1 e2
  exact ⟨rfl, ⟨List.replicate vs 0, rfl, List.length_replicate _ _⟩, rfl⟩

/-! ## Claim C5 -/

/-- C5 counterexample: with the Vector backend down, `semantic_search`
returns the empty list — not non-empty Search-only results, and the result
shape carries no `degraded` annotation at all — refuting the claimed
degraded-read behaviour (the spec's rendering `specDegradedNonEmpty`
fails). -/
theorem C5_no_degraded_results_counterexample :
    semantic_search false exampleVecStore exampleSim 3 exampleEncode3
      "progress" 10 (7 / 10) = [] ∧
    ¬ specDegradedNonEmpty (semantic_search false exampleVecStore exampleSim 3
      exampleEncode3 "progress" 10 (7 / 10)) := by
  refine ⟨rfl, ?_⟩
  intro h
  exact h rfl

/-- C5 (amended): when the Vector backend is unavailable, `semantic_search`
does not raise — the connection error is caught and the empty result list
is returned (so callers never see an exception), but no `degraded: true`
flag exists and no Search-only fallback results are produced. -/
theorem C5_vector_down_degrades_to_empty :
    ∀ (st : VecStore) (sim : List ℚ → List ℚ → ℚ) (vector_size : Nat)
      (encode : String → Except String (List ℚ)) (query_text : String)
      (limit : Nat) (score_threshold : ℚ),
      semantic_search false st sim vector_size encode query_text limit
        score_threshold = [] := by
  intro st sim vs encode q limit θ
  cases hg : generate_embedding vs encode q with
  | error e => simp [semantic_search, hg]
  | ok qv => simp [semantic_search, hg, qdrant_search_call]

/-! ## Claim C6 -/

/-- C6 counterexample: a dimensionality-mismatched upsert (model dimension
3 against a size-2 collection) makes `store_feedback_embedding` return
`False` with the store unchanged, but no Vector task transitions to
FailedTerminal — the source records no task status whatsoever. -/
theorem C6_no_failed_terminal_status_counterexample :
    store_feedback_embedding exampleVecStore 3 exampleEncode3 7
      "great progress" [] = (false, exampleVecStore) ∧
    recordedVectorTaskStatus (store_feedback_embedding exampleVecStore 3
      exampleEncode3 7 "great progress" []) ≠
      some SpecTaskStatus.FailedTerminal := by
  refine ⟨rfl, ?_⟩
  simp [recordedVectorTaskStatus]

/-- C6 (amended): inserting a vector whose dimensionality does not match
the collection's fixed size is rejected by the store and never silently
coerced: `store_feedback_embedding` returns `False` and the store is
unchanged after the single attempt (the function itself performs no
retry); no task-status ledger exists, so no FailedTerminal transition is
recorded. -/
theorem C6_dimension_mismatch_rejected :
    ∀ (st : VecStore) (vector_size : Nat)
      (encode : String → Except String (List ℚ)) (fid : Nat) (text : String)
      (metadata : List (String × String)) (v : List ℚ),
      generate_embedding vector_size encode text = .ok v →
      v.length ≠ st.size →
      store_feedback_embedding st vector_size encode fid text metadata =
        (false, st) ∧
      recordedVectorTaskStatus (store_feedback_embedding st vector_size
        encode fid text metadata) = none := by
  intro st vs encode fid text md v hg hlen
  refine ⟨?_, rfl⟩
  simp [store_feedback_embedding, hg, qdrant_upsert, hlen]

/-- C6 witness: the concrete mismatched call (dimension 3 vector into the
size-2 store) is rejected with the store unchanged. -/
theorem C6_dimension_mismatch_rejected_witness :
    generate_embedding 3 exampleEncode3 "great progress" = .ok [1, 0, 0] ∧
    ([1, 0, 0] : List ℚ).length ≠ exampleVecStore.size ∧
    store_feedback_embedding exampleVecStore 3 exampleEncode3 7
      "great progress" [] = (false, exampleVecStore) := by
  exact ⟨rfl, by decide,
    (C6_dimension_mismatch_rejected exampleVecStore 3 exampleEncode3 7
      "great progress" [] [1, 0, 0] rfl (by decide)).1⟩

/-! ## Claim C10 -/

/-- C10: `ElasticsearchClient.search` is total at its interface (it returns
a result dictionary for every input — exceptions are caught inside): it
answers the error shape (an `error` key, empty `hits`, `total = 0`) exactly
when the client is disconnected and reconnection fails or the query raises,
and on success the `hits` list never exceeds the requested `size`. -/
theorem C10_search_total_error_shape_and_cap :
    ∀ (connected connect_ok : Bool) (matching : List EsHit)
      (failure : Option String) (size from_ : Nat),
      ((es_client_search connected connect_ok matching failure size
        from_).error.isSome →
        (es_client_search connected connect_ok matching failure size
          from_).hits = [] ∧
        (es_client_search connected connect_ok matching failure size
          from_).total = 0) ∧
      ((es_client_search connected connect_ok matching failure size
        from_).error = none →
        (es_client_search connected connect_ok matching failure size
          from_).hits.length ≤ size) ∧
      ((es_client_search connected connect_ok matching failure size
        from_).error.isSome ↔
        ((!connected && !connect_ok) = true ∨ failure.isSome)) := by
  intro c ck m f sz fr
  unfold es_client_search
  by_cases hc : (!c && !ck) = true
  · rw [if_pos hc]
    simp [hc]
  · rw [if_neg hc]
    cases f with
    | some e => simp [hc]
    | none => simp [hc]

end SpedETL
